import Mathlib

/-!
Verification development for the iam-policy-autopilot-test repository.

The repository wires Lambda functions to AWS services through CDK constructs
and applies IAM policies produced by the external IAM Policy Autopilot
synthesizer.  Three bodies of code are embedded here:

1. the in-repo consumer `IAMPermissionConstruct`
   (src/lib/constructs/iam-permission-construct.ts), embedded as pure
   functions from construct properties to the list of emitted IAM policy
   statements;
2. the policy synthesizer itself, which is external to the repository
   (only its observed inputs/outputs in
   src/reports/iam-policy-autopilot-analysis.md and the spec reconstruct
   its contract), modelled from the spec; and
3. the sqs-dynamodb-processor Lambda handler (src/unnamed/part_001),
   embedded with the DynamoDB side effect abstracted as an
   `Except`-returning parameter.
-/

namespace IamPolicyAutopilot

/-! ## Lexicographic comparison on strings

String comparison that reduces in the kernel: the built-in `String` order
goes through `String.ltb` iterators, which do not reduce definitionally,
so we compare the underlying character lists by code point. -/

/-- Lexicographic order on character lists, by code point. -/
def listLe : List Char → List Char → Bool
  | [], _ => true
  | _ :: _, [] => false
  | a :: as, b :: bs =>
    if a.toNat < b.toNat then true
    else if b.toNat < a.toNat then false
    else listLe as bs

/-- Kernel-reducible lexicographic order on strings. -/
def strLe (a b : String) : Prop := listLe a.data b.data = true

instance : DecidableRel strLe := fun a b => by unfold strLe; infer_instance

/-! ## The unit of policy output

Both the construct code and the observed synthesizer outputs emit IAM
policy statements whose only condition form is
`StringLike { "kms:ViaService": <pattern> }`; the `viaService` field holds
that pattern, `none` standing for a statement without a `Condition` key. -/

/-- An IAM policy statement as emitted by `iam.PolicyStatement` in the
construct code and by the synthesizer in the report; `viaService` is the
`StringLike kms:ViaService` condition pattern when present. -/
structure PolicyStatement where
  effect : String := "Allow"
  actions : List String
  resources : List String
  viaService : Option String := none
deriving DecidableEq

/-! ## Embedding of IAMPermissionConstruct
(src/lib/constructs/iam-permission-construct.ts)

CDK resource interfaces are reduced to the fields the constructor reads:
each resource carries its ARN and, where the constructor inspects it, its
optional customer-managed encryption key. -/

/-- A KMS key reference (`kms.IKey`): only `keyArn` is read. -/
structure KeyRef where
  keyArn : String
deriving DecidableEq

/-- An S3 bucket reference (`s3.IBucket`): `bucketArn` and `encryptionKey`. -/
structure BucketRef where
  bucketArn : String
  encryptionKey : Option KeyRef := none
deriving DecidableEq

/-- An SQS queue reference (`sqs.IQueue`): `queueArn` and `encryptionMasterKey`. -/
structure QueueRef where
  queueArn : String
  encryptionMasterKey : Option KeyRef := none
deriving DecidableEq

/-- A DynamoDB table reference (`dynamodb.ITable`): `tableArn` and `encryptionKey`. -/
structure TableRef where
  tableArn : String
  encryptionKey : Option KeyRef := none
deriving DecidableEq

/-- A Secrets Manager secret reference (`secretsmanager.ISecret`). -/
structure SecretRef where
  secretArn : String
  encryptionKey : Option KeyRef := none
deriving DecidableEq

/-- An EventBridge event bus reference (`events.IEventBus`). -/
structure EventBusRef where
  eventBusArn : String
deriving DecidableEq

/-- The closed set of permission kinds accepted by
`IAMPermissionConstructProps.permissions`. -/
inductive Permission
  | read
  | write
  | delete
  | consume
  | send
  | invoke
deriving DecidableEq

/-- `IAMPermissionConstructProps` without the mandatory `lambdaFunction`
target (statements are returned rather than attached to a role); a `none`
`permissions` field stands for an absent property, defaulted to `["read"]`
by the constructor. -/
structure IAMPermissionConstructProps where
  s3Bucket : Option BucketRef := none
  sqsQueue : Option QueueRef := none
  dynamoDBTable : Option TableRef := none
  secret : Option SecretRef := none
  eventBus : Option EventBusRef := none
  kmsKey : Option KeyRef := none
  bedrockModelId : Option String := none
  permissions : Option (List Permission) := none

/-- The S3 `switch (permission)` block of the constructor. -/
def s3PermissionStatements (b : BucketRef) : Permission → List PolicyStatement
  | .read =>
    [{ actions := ["s3:GetObject", "s3:GetObjectLegalHold", "s3:GetObjectRetention",
                   "s3:GetObjectTagging", "s3:GetObjectVersion"],
       resources := [b.bucketArn ++ "/*"] },
     { actions := ["s3-object-lambda:GetObject"],
       resources := [b.bucketArn ++ "/*"] }] ++
    (match b.encryptionKey with
     | some k =>
       [{ actions := ["kms:Decrypt"], resources := [k.keyArn],
          viaService := some "s3.*.amazonaws.com" }]
     | none => [])
  | .write =>
    [{ actions := ["s3:PutObject", "s3:PutObjectAcl", "s3:PutObjectLegalHold",
                   "s3:PutObjectRetention", "s3:PutObjectTagging"],
       resources := [b.bucketArn ++ "/*"] },
     { actions := ["s3-object-lambda:PutObject"],
       resources := [b.bucketArn ++ "/*"] }] ++
    (match b.encryptionKey with
     | some k =>
       [{ actions := ["kms:GenerateDataKey"], resources := [k.keyArn],
          viaService := some "s3.*.amazonaws.com" }]
     | none => [])
  | .delete =>
    [{ actions := ["s3:DeleteObject", "s3:DeleteObjectVersion"],
       resources := [b.bucketArn ++ "/*"] }]
  | _ => []

/-- The SQS `switch (permission)` block of the constructor. -/
def sqsPermissionStatements (q : QueueRef) : Permission → List PolicyStatement
  | .consume =>
    [{ actions := ["sqs:ReceiveMessage", "sqs:DeleteMessage",
                   "sqs:GetQueueAttributes", "sqs:ChangeMessageVisibility"],
       resources := [q.queueArn] }] ++
    (match q.encryptionMasterKey with
     | some k =>
       [{ actions := ["kms:Decrypt"], resources := [k.keyArn],
          viaService := some "sqs.*.amazonaws.com" }]
     | none => [])
  | .send =>
    [{ actions := ["sqs:SendMessage", "sqs:GetQueueUrl"],
       resources := [q.queueArn] }]
  | _ => []

/-- The DynamoDB `switch (permission)` block of the constructor.  Note the
write case grants `kms:Decrypt`, not `kms:GenerateDataKey`, mirroring
lines 269-293 of the source. -/
def dynamoDBPermissionStatements (t : TableRef) : Permission → List PolicyStatement
  | .read =>
    [{ actions := ["dynamodb:GetItem", "dynamodb:Query", "dynamodb:Scan",
                   "dynamodb:BatchGetItem"],
       resources := [t.tableArn, t.tableArn ++ "/index/*"] }] ++
    (match t.encryptionKey with
     | some k =>
       [{ actions := ["kms:Decrypt"], resources := [k.keyArn],
          viaService := some "dynamodb.*.amazonaws.com" }]
     | none => [])
  | .write =>
    [{ actions := ["dynamodb:PutItem"], resources := [t.tableArn] }] ++
    (match t.encryptionKey with
     | some k =>
       [{ actions := ["kms:Decrypt"], resources := [k.keyArn],
          viaService := some "dynamodb.*.amazonaws.com" }]
     | none => [])
  | _ => []

/-- The Secrets Manager `switch (permission)` block of the constructor. -/
def secretPermissionStatements (s : SecretRef) : Permission → List PolicyStatement
  | .read =>
    [{ actions := ["secretsmanager:GetSecretValue"], resources := [s.secretArn] }] ++
    (match s.encryptionKey with
     | some k =>
       [{ actions := ["kms:Decrypt"], resources := [k.keyArn],
          viaService := some "secretsmanager.*.amazonaws.com" }]
     | none => [])
  | .write =>
    [{ actions := ["secretsmanager:PutSecretValue", "secretsmanager:UpdateSecret"],
       resources := [s.secretArn] }]
  | _ => []

/-- The EventBridge `switch (permission)` block of the constructor. -/
def eventBusPermissionStatements (e : EventBusRef) : Permission → List PolicyStatement
  | .send =>
    [{ actions := ["events:PutEvents"], resources := [e.eventBusArn] }]
  | _ => []

/-- The KMS key `switch (permission)` block of the constructor (an
explicitly supplied `kmsKey` property, no `ViaService` condition). -/
def kmsKeyPermissionStatements (k : KeyRef) : Permission → List PolicyStatement
  | .read =>
    [{ actions := ["kms:Decrypt"], resources := [k.keyArn] }]
  | .write =>
    [{ actions := ["kms:Encrypt", "kms:GenerateDataKey"], resources := [k.keyArn] }]
  | _ => []

/-- The Bedrock `switch (permission)` block of the constructor (the model
id is only tested for presence, never read). -/
def bedrockPermissionStatements (_modelId : String) : Permission → List PolicyStatement
  | .invoke =>
    [{ actions := ["bedrock:ApplyGuardrail"],
       resources := ["arn:aws:bedrock:*:*:guardrail-profile/*",
                     "arn:aws:bedrock:*:*:guardrail/*"] },
     { actions := ["bedrock:CallWithBearerToken", "bedrock:InvokeModel"],
       resources := ["*"] }]
  | _ => []

/-- The full `IAMPermissionConstruct` constructor: the list of policy
statements added to the Lambda role, in source order (resources in
declaration order, permissions iterated per resource). -/
def iamPermissionConstructStatements (props : IAMPermissionConstructProps) :
    List PolicyStatement :=
  let permissions := props.permissions.getD [.read]
  (match props.s3Bucket with
   | some b => permissions.flatMap (s3PermissionStatements b)
   | none => []) ++
  (match props.sqsQueue with
   | some q => permissions.flatMap (sqsPermissionStatements q)
   | none => []) ++
  (match props.dynamoDBTable with
   | some t => permissions.flatMap (dynamoDBPermissionStatements t)
   | none => []) ++
  (match props.secret with
   | some s => permissions.flatMap (secretPermissionStatements s)
   | none => []) ++
  (match props.eventBus with
   | some e => permissions.flatMap (eventBusPermissionStatements e)
   | none => []) ++
  (match props.kmsKey with
   | some k => permissions.flatMap (kmsKeyPermissionStatements k)
   | none => []) ++
  (match props.bedrockModelId with
   | some m => permissions.flatMap (bedrockPermissionStatements m)
   | none => [])

/-! ## Model of the IAM Policy Autopilot synthesizer

The synthesizer is invoked as an out-of-process tool and its source is not
part of this repository; the spec reconstructs its contract (spec sections
2, 3, 4, 6, 7) from the observed inputs and outputs recorded in
src/reports/iam-policy-autopilot-analysis.md.  Every definition in this
section is therefore modelled from the spec, anchored to the observed
report outputs where the spec itself defers to them (the DynamoDB write
path and the statement grouping, see spec sections 8 and 9). -/

/-- Modelled from the spec: a detected SDK invocation site, a
(client-namespace, operation-name, source-location) triple.  `nspace` is
the service namespace (the spec field is named `namespace`, a reserved
word here). -/
structure CallSite where
  nspace : String
  operation : String
  file : String
  line : Nat
deriving DecidableEq

/-- Modelled from the spec: the value of an Action Mapping Table entry,
primary IAM actions plus conventionally bundled companion actions. -/
structure ActionMapping where
  primaryActions : List String
  companionActions : List String
deriving DecidableEq

/-- Modelled from the spec (section 4.2) and the observed outputs in the
report: the curated `lookup(namespace, operation)` of the Action Mapping
Table, `none` standing for `NotFound`.  Entries cover the operations
observed across the three report scenarios; the document-client
`PutCommand` is extracted as the (dynamodb, PutItem) operation. -/
def lookup (nspace operation : String) : Option ActionMapping :=
  match nspace, operation with
  | "s3", "GetObject" =>
    some { primaryActions := ["s3:GetObject", "s3:GetObjectLegalHold",
                              "s3:GetObjectRetention", "s3:GetObjectTagging",
                              "s3:GetObjectVersion"],
           companionActions := ["s3-object-lambda:GetObject"] }
  | "s3", "PutObject" =>
    some { primaryActions := ["s3:PutObject", "s3:PutObjectAcl",
                              "s3:PutObjectLegalHold", "s3:PutObjectRetention",
                              "s3:PutObjectTagging"],
           companionActions := ["s3-object-lambda:PutObject"] }
  | "dynamodb", "PutItem" =>
    some { primaryActions := ["dynamodb:PutItem"], companionActions := [] }
  | "secretsmanager", "GetSecretValue" =>
    some { primaryActions := ["secretsmanager:GetSecretValue"],
           companionActions := [] }
  | "events", "PutEvents" =>
    some { primaryActions := ["events:PutEvents"], companionActions := [] }
  | "bedrock", "InvokeModel" =>
    some { primaryActions := ["bedrock:InvokeModel", "bedrock:CallWithBearerToken"],
           companionActions := ["bedrock:ApplyGuardrail"] }
  | _, _ => none

/-- The service namespace of an IAM action string, the part before the
first colon (for example `s3-object-lambda` for
`s3-object-lambda:GetObject`). -/
def namespaceOf (action : String) : String :=
  ⟨action.data.takeWhile (fun c => c ≠ ':')⟩

/-- Modelled from the spec (section 4.3): the Resource Pattern Resolver
with no statically resolvable `ResourceClue` (the analyzed handlers read
bucket and table names from environment variables, which the spec
excludes as clues), so every action receives the broadest valid ARN
wildcard observed in the report for its service. -/
def resourcesFor (action : String) : List String :=
  if namespaceOf action = "s3" ∨ namespaceOf action = "s3-object-lambda" then
    ["arn:aws:s3:*:*:accesspoint/*/object/*", "arn:aws:s3:::*/*"]
  else if namespaceOf action = "dynamodb" then
    ["arn:aws:dynamodb:*:*:table/*"]
  else if namespaceOf action = "secretsmanager" then
    ["arn:aws:secretsmanager:*:*:secret:*"]
  else if namespaceOf action = "events" then
    ["arn:aws:events:*:*:event-bus/*"]
  else if namespaceOf action = "kms" then
    ["arn:aws:kms:*:*:key/*"]
  else if action = "bedrock:ApplyGuardrail" then
    ["arn:aws:bedrock:*:*:guardrail-profile/*", "arn:aws:bedrock:*:*:guardrail/*"]
  else
    ["*"]

/-- Modelled from the spec (section 4.4): read-class operations,
`Get*`, `Query`, `Scan`, `ReceiveMessage` (and `GetSecretValue`, which
falls under `Get*`). -/
def isReadClass (operation : String) : Bool :=
  "Get".data.isPrefixOf operation.data ||
    operation = "Query" || operation = "Scan" || operation = "ReceiveMessage"

/-- Modelled from the spec (section 4.4): write-class operations,
`Put*` and `Update*`. -/
def isWriteClass (operation : String) : Bool :=
  "Put".data.isPrefixOf operation.data || "Update".data.isPrefixOf operation.data

/-- Modelled from the spec (sections 4.4 and 9) and the observed report
outputs: the KMS companion action of the Implicit Dependency Expander for
a call site on a service supporting server-side encryption with a
customer-managed key.  Read-class operations receive `kms:Decrypt`;
write-class operations receive `kms:GenerateDataKey`, except the DynamoDB
write path, which the report shows receiving `kms:Decrypt` (the
access-class-to-KMS-action mapping is service-specific, the open question
of spec section 9). -/
def kmsCompanionAction (nspace operation : String) : Option String :=
  if nspace = "s3" ∨ nspace = "dynamodb" ∨
      nspace = "secretsmanager" ∨ nspace = "sqs" then
    if isReadClass operation then some "kms:Decrypt"
    else if isWriteClass operation then
      if nspace = "dynamodb" then some "kms:Decrypt"
      else some "kms:GenerateDataKey"
    else none
  else none

/-- Modelled from the spec: a resolved (action, resource-set, condition)
tuple, the intermediate currency between resolver/expander and assembler. -/
structure ActionTuple where
  action : String
  resources : List String
  viaService : Option String := none
deriving DecidableEq

/-- Modelled from the spec (section 4.4): the KMS statement tuples the
Implicit Dependency Expander contributes for one call site. -/
def expanderTuples (cs : CallSite) : List ActionTuple :=
  match kmsCompanionAction cs.nspace cs.operation with
  | some a =>
    [{ action := a, resources := ["arn:aws:kms:*:*:key/*"],
       viaService := some (cs.nspace ++ ".*.amazonaws.com") }]
  | none => []

/-- Modelled from the spec (sections 4.2 to 4.4): all tuples one call site
contributes; an unmapped operation (`NotFound`) contributes nothing and
does not trigger expansion. -/
def callSiteTuples (cs : CallSite) : List ActionTuple :=
  match lookup cs.nspace cs.operation with
  | none => []
  | some m =>
    (m.primaryActions ++ m.companionActions).map
      (fun a => { action := a, resources := resourcesFor a }) ++
    expanderTuples cs

/-- Modelled from the spec and the observed report outputs: the grouping
key of the Policy Document Assembler.  The report groups statements by the
action namespace as well as by (resource-set, condition): the
simple-s3-reader policy keeps `s3:Get*` and `s3-object-lambda:GetObject`
in separate statements although both carry the same resource list and no
condition. -/
structure GroupKey where
  nspace : String
  resources : List String
  viaService : Option String
deriving DecidableEq

/-- The grouping key of one tuple. -/
def tupleKey (t : ActionTuple) : GroupKey :=
  { nspace := namespaceOf t.action, resources := t.resources,
    viaService := t.viaService }

/-- A stable textual sort key for a grouping key (spec section 4.5 asks
for a deterministic statement order by a stable key). -/
def encodeKey (k : GroupKey) : String :=
  k.nspace ++ "|" ++ String.intercalate "," k.resources ++ "|" ++
    k.viaService.getD ""

/-- The stable order on grouping keys used by the assembler. -/
def keyLe (a b : GroupKey) : Prop := strLe (encodeKey a) (encodeKey b)

instance : DecidableRel keyLe := fun a b => by unfold keyLe; infer_instance

/-- The statement assembled for one grouping key from the full tuple
list: the deduplicated actions of the tuples sharing the key, with the
resources and condition of the key. -/
def statementFor (tuples : List ActionTuple) (k : GroupKey) : PolicyStatement :=
  { actions := ((tuples.filter (fun t => decide (tupleKey t = k))).map
      (fun t => t.action)).dedup,
    resources := k.resources,
    viaService := k.viaService }

/-- Modelled from the spec (section 4.5) and the observed report outputs:
the Policy Document Assembler.  Tuples are grouped by `GroupKey`
(namespace, resource-set, condition), each distinct key yields one
statement, and statements are ordered by the stable key order. -/
def assemble (tuples : List ActionTuple) : List PolicyStatement :=
  (List.insertionSort keyLe (tuples.map tupleKey).dedup).map
    (statementFor tuples)

/-- The service namespaces present in an assembled policy, read off the
actions of its statements (spec section 4.6). -/
def namespacesPresent (policy : List PolicyStatement) : List String :=
  (policy.flatMap (fun st => st.actions.map namespaceOf)).dedup

/-- Modelled from the spec (section 4.6): the Coverage Reporter,
`unmatchedHints = hints − namespacesPresent`. -/
def unmatchedHintsOf (hints : List String) (policy : List PolicyStatement) :
    List String :=
  hints.filter (fun h => decide (h ∉ namespacesPresent policy))

/-- Modelled from the spec (section 3): the `SynthesisResult` record.
`unmappedOperations` is the coverage-gap list of call sites whose lookup
returned `NotFound` (spec section 7, `UnmappedOperation`). -/
structure SynthesisResult where
  policy : List PolicyStatement
  detectedCallSites : List CallSite
  unmatchedHints : List String
  unmappedOperations : List CallSite
deriving DecidableEq

/-- Modelled from the spec (sections 2 to 4): the synthesis pipeline over
an already extracted call-site list: mapping, resolution, expansion,
assembly and coverage reporting. -/
def synthesize (hints : List String) (callSites : List CallSite) :
    SynthesisResult :=
  let policy := assemble (callSites.flatMap callSiteTuples)
  { policy := policy,
    detectedCallSites := callSites,
    unmatchedHints := unmatchedHintsOf hints policy,
    unmappedOperations :=
      callSites.filter (fun cs => decide (lookup cs.nspace cs.operation = none)) }

/-- Modelled from the spec (section 4.1): one input source file with the
outcome of parsing it, `none` when the file cannot be parsed in its
declared language (`ParseError`), otherwise the extracted call sites. -/
structure SourceFile where
  path : String
  parsed : Option (List CallSite)
deriving DecidableEq

/-- The first unparsable input file, if any. -/
def firstUnparsable : List SourceFile → Option String
  | [] => none
  | f :: fs =>
    match f.parsed with
    | none => some f.path
    | some _ => firstUnparsable fs

/-- Modelled from the spec (section 7): the three-way outcome taxonomy of
an invocation.  `emptyInput` is the distinct `EmptyInputError` outcome,
which still carries the (empty) result; `parseError` is the fatal
`ParseError` naming the offending file. -/
inductive SynthOutcome where
  | ok (result : SynthesisResult)
  | emptyInput (result : SynthesisResult)
  | parseError (path : String)
deriving DecidableEq

/-- Whether an outcome is the fatal failure case. -/
def SynthOutcome.isFailure : SynthOutcome → Bool
  | .parseError _ => true
  | _ => false

/-- Modelled from the spec (sections 6 and 7): a full invocation over input
files.  A parse failure on any file aborts the invocation; zero detected
call sites across all files yield the `emptyInput` outcome. -/
def runSynthesis (hints : List String) (files : List SourceFile) :
    SynthOutcome :=
  match firstUnparsable files with
  | some p => .parseError p
  | none =>
    let callSites := files.flatMap (fun f => f.parsed.getD [])
    let r := synthesize hints callSites
    if callSites.isEmpty then .emptyInput r else .ok r

/-! ## Embedding of the sqs-dynamodb-processor handler
(src/unnamed/part_001)

The handler copies SQS records into DynamoDB and reports partial batch
failures.  The DynamoDB `docClient.send(new PutCommand ...)` effect is
abstracted as an `Except`-returning function parameter, and the ambient
clock (`new Date(...).toISOString()`) as a `Clock` record, so the control
flow is embedded exactly while the effects stay explicit. -/

/-- The fields of an `SQSRecord` the handler reads; optional fields mirror
the optional chaining in the source (`record.attributes?.SentTimestamp`,
`record.eventSourceARN?`). -/
structure SQSRecord where
  messageId : String
  body : String
  sentTimestamp : Option String := none
  eventSourceARN : Option String := none
deriving DecidableEq

/-- `ProcessedMessage`: the DynamoDB item shape built by `extractMessage`. -/
structure ProcessedMessage where
  messageId : String
  timestamp : String
  body : String
  sourceQueue : String
  processedAt : String
  status : String
deriving DecidableEq

/-- The ambient time functions of the handler: `nowIso` models
`new Date().toISOString()` and `epochToIso` models
`new Date(parseInt(ts)).toISOString()`. -/
structure Clock where
  nowIso : String
  epochToIso : String → String

/-- Splitting a character list at a separator, the `String.split(":")`
of the source (kernel-reducible, unlike `String.splitOn`). -/
def splitChars (sep : Char) : List Char → List (List Char)
  | [] => [[]]
  | c :: cs =>
    if c = sep then [] :: splitChars sep cs
    else
      match splitChars sep cs with
      | [] => [[c]]
      | g :: gs => (c :: g) :: gs

/-- `record.eventSourceARN?.split(":").pop() || "unknown"`:
the last colon-separated ARN component, with the JavaScript falsy
fallback (`undefined` or the empty string both yield `"unknown"`). -/
def sourceQueueOf (arn : Option String) : String :=
  match arn with
  | none => "unknown"
  | some a =>
    match ((splitChars ':' a.data).map (fun g => (⟨g⟩ : String))).getLast? with
    | none => "unknown"
    | some s => if s = "" then "unknown" else s

/-- `extractMessage`: converts an SQS record into the `ProcessedMessage`
item, using `SentTimestamp` when present and the current time otherwise. -/
def extractMessage (clock : Clock) (record : SQSRecord) : ProcessedMessage :=
  { messageId := record.messageId,
    timestamp :=
      match record.sentTimestamp with
      | some ts => clock.epochToIso ts
      | none => clock.nowIso,
    body := record.body,
    sourceQueue := sourceQueueOf record.eventSourceARN,
    processedAt := clock.nowIso,
    status := "processed" }

/-- The error classes distinguished by `classifyError` in the source; the
concrete class never influences control flow beyond logging. -/
inductive DynamoError where
  | conditionalCheckFailed
  | throughputExceeded
  | resourceNotFound
  | other (name : String)
deriving DecidableEq

/-- `processMessage`: extract the message and store it via the DynamoDB
client; a storage error propagates (the source rethrows). -/
def processMessage (clock : Clock)
    (send : ProcessedMessage → Except DynamoError Unit)
    (record : SQSRecord) : Except DynamoError Unit :=
  send (extractMessage clock record)

/-- An `SQSBatchItemFailure` entry of the partial-batch-failure response. -/
structure SQSBatchItemFailure where
  itemIdentifier : String
deriving DecidableEq

/-- The `SQSBatchResponse` returned by the handler. -/
structure SQSBatchResponse where
  batchItemFailures : List SQSBatchItemFailure
deriving DecidableEq

/-- An `SQSEvent`: the batch of records delivered to the handler. -/
structure SQSEvent where
  Records : List SQSRecord
deriving DecidableEq

/-- Whether processing one record fails (the predicate of the per-record
`catch` branch in the handler). -/
def recordFails (clock : Clock)
    (send : ProcessedMessage → Except DynamoError Unit)
    (record : SQSRecord) : Bool :=
  match processMessage clock send record with
  | .ok _ => false
  | .error _ => true

/-- The accumulation of `batchItemFailures` across the records: each
record is processed inside try/catch, a caught error appends the
`messageId` of the record and processing continues with the remaining
records. -/
def handlerFailures (clock : Clock)
    (send : ProcessedMessage → Except DynamoError Unit) :
    List SQSRecord → List SQSBatchItemFailure
  | [] => []
  | r :: rs =>
    match processMessage clock send r with
    | .ok _ => handlerFailures clock send rs
    | .error _ =>
      { itemIdentifier := r.messageId } :: handlerFailures clock send rs

/-- The `handler`: every per-record failure is caught inside the loop, so
the only possible outcome of the returned promise is resolution with the
batch response; an uncaught error would surface as the `.error` case of
the result type, which the body never produces. -/
def handler (clock : Clock)
    (send : ProcessedMessage → Except DynamoError Unit)
    (event : SQSEvent) : Except DynamoError SQSBatchResponse :=
  .ok { batchItemFailures := handlerFailures clock send event.Records }

/-! ## Derived observations on policies, used to state the claims -/

/-- Whether some statement of a policy grants a given action. -/
def policyHasAction (policy : List PolicyStatement) (a : String) : Prop :=
  ∃ st ∈ policy, a ∈ st.actions

instance (policy : List PolicyStatement) (a : String) :
    Decidable (policyHasAction policy a) := by
  unfold policyHasAction
  infer_instance

/-- The deduplicated service namespaces of the actions of one statement. -/
def statementNamespaces (st : PolicyStatement) : List String :=
  (st.actions.map namespaceOf).dedup

/-- The grouping key a statement exposes through its content (for a
statement assembled by `assemble`, this recovers the key of its group). -/
def statementKey (st : PolicyStatement) : GroupKey :=
  { nspace := (statementNamespaces st).headD "",
    resources := st.resources,
    viaService := st.viaService }

/-- Whether a statement grants any `kms:`-namespaced action. -/
def hasKmsAction (st : PolicyStatement) : Bool :=
  st.actions.any (fun a => decide (namespaceOf a = "kms"))

/-! ## Properties of the lexicographic order -/

theorem listLe_cons_iff {x y : Char} {xs ys : List Char} :
    listLe (x :: xs) (y :: ys) = true ↔
      x.toNat < y.toNat ∨ (x.toNat = y.toNat ∧ listLe xs ys = true) := by
  simp only [listLe]
  by_cases h1 : x.toNat < y.toNat
  · simp [h1]
  · by_cases h2 : y.toNat < x.toNat
    · simp [h1, h2]
      omega
    · have h3 : x.toNat = y.toNat := by omega
      simp [h1, h2, h3]

theorem listLe_total (a b : List Char) : listLe a b = true ∨ listLe b a = true := by
  induction a generalizing b with
  | nil => left; rfl
  | cons x xs ih =>
    cases b with
    | nil => right; rfl
    | cons y ys =>
      rcases Nat.lt_trichotomy x.toNat y.toNat with h | h | h
      · left; rw [listLe_cons_iff]; left; exact h
      · rcases ih ys with ht | ht
        · left; rw [listLe_cons_iff]; right; exact ⟨h, ht⟩
        · right; rw [listLe_cons_iff]; right; exact ⟨h.symm, ht⟩
      · right; rw [listLe_cons_iff]; left; exact h

theorem listLe_trans : ∀ {a b c : List Char},
    listLe a b = true → listLe b c = true → listLe a c = true
  | [], _, _, _, _ => rfl
  | _ :: _, [], _, h1, _ => by simp [listLe] at h1
  | _ :: _, _ :: _, [], _, h2 => by simp [listLe] at h2
  | _ :: xs, _ :: ys, _ :: zs, h1, h2 => by
    rw [listLe_cons_iff] at h1 h2 ⊢
    rcases h1 with h1 | ⟨e1, t1⟩ <;> rcases h2 with h2 | ⟨e2, t2⟩
    · left; omega
    · left; omega
    · left; omega
    · right; exact ⟨by omega, listLe_trans t1 t2⟩

theorem keyLe_total (a b : GroupKey) : keyLe a b ∨ keyLe b a :=
  listLe_total (encodeKey a).data (encodeKey b).data

theorem keyLe_trans {a b c : GroupKey} (h1 : keyLe a b) (h2 : keyLe b c) :
    keyLe a c :=
  listLe_trans h1 h2

/-! ## Properties of the assembler grouping -/

theorem dedup_eq_single {α : Type} [DecidableEq α] :
    ∀ {l : List α} {c : α}, l ≠ [] → (∀ x ∈ l, x = c) → l.dedup = [c]
  | [], _, h, _ => absurd rfl h
  | [x], c, _, hall => by simp [List.dedup, hall x (by simp)]
  | x :: y :: t, c, _, hall => by
    have hx : x = c := hall x (by simp)
    have hy : y = c := hall y (by simp)
    have ht : (y :: t).dedup = [c] :=
      dedup_eq_single (by simp) (fun z hz => hall z (List.mem_cons_of_mem x hz))
    have hmem : x ∈ y :: t := by
      rw [hx, hy]; exact List.mem_cons_self c t
    rw [List.dedup_cons_of_mem hmem, ht]

/-- Every action grouped under a key carries the namespace of the key, and
the group of a key drawn from the tuple list is nonempty, so the
namespaces of the assembled statement collapse to the key namespace. -/
theorem statementNamespaces_statementFor {tuples : List ActionTuple}
    {k : GroupKey} (hk : k ∈ (tuples.map tupleKey).dedup) :
    statementNamespaces (statementFor tuples k) = [k.nspace] := by
  obtain ⟨t, ht, htk⟩ := List.mem_map.mp (List.mem_dedup.mp hk)
  have htf : t ∈ tuples.filter (fun t => decide (tupleKey t = k)) :=
    List.mem_filter.mpr ⟨ht, by simp [htk]⟩
  have hne :
      ((tuples.filter (fun t => decide (tupleKey t = k))).map
        (fun t => t.action)).dedup ≠ [] := by
    intro hnil
    have : t.action ∈
        ((tuples.filter (fun t => decide (tupleKey t = k))).map
          (fun t => t.action)).dedup :=
      List.mem_dedup.mpr (List.mem_map_of_mem _ htf)
    rw [hnil] at this
    exact absurd this (List.not_mem_nil _)
  refine dedup_eq_single ?_ ?_
  · intro hnil
    exact hne (List.map_eq_nil_iff.mp hnil)
  · intro x hx
    obtain ⟨a, ha, hax⟩ := List.mem_map.mp hx
    have ha2 : a ∈ (tuples.filter (fun t => decide (tupleKey t = k))).map
        (fun t => t.action) := List.mem_dedup.mp ha
    obtain ⟨u, hu, hua⟩ := List.mem_map.mp ha2
    have huk : tupleKey u = k := by
      have := (List.mem_filter.mp hu).2
      simpa using this
    calc x = namespaceOf a := hax.symm
    _ = namespaceOf u.action := by rw [hua]
    _ = (tupleKey u).nspace := rfl
    _ = k.nspace := by rw [huk]

/-- The key of a group is recoverable from the assembled statement. -/
theorem statementKey_statementFor {tuples : List ActionTuple} {k : GroupKey}
    (hk : k ∈ (tuples.map tupleKey).dedup) :
    statementKey (statementFor tuples k) = k := by
  have h := statementNamespaces_statementFor hk
  cases k with
  | mk n r v =>
    simp only [statementKey, h]
    rfl

/-- Membership in the sorted key list reflects to the deduplicated keys. -/
theorem mem_of_mem_sorted_keys {tuples : List ActionTuple} {k : GroupKey}
    (hk : k ∈ List.insertionSort keyLe (tuples.map tupleKey).dedup) :
    k ∈ (tuples.map tupleKey).dedup :=
  (List.perm_insertionSort keyLe _).subset hk

/-! ## Claims about the Policy Document Assembler (C4, C5) -/

/-- C4 counterexample: the claim that no two distinct statements of an
assembled policy share an identical (resource-set, condition) pair fails
on the observed simple-s3-reader output: the `s3:Get*` statement and the
`s3-object-lambda:GetObject` statement both carry the resource list
`[accesspoint-pattern, arn:aws:s3:::*/*]` and no condition, yet remain
two statements. -/
theorem assembled_policy_shares_resource_condition_pair :
    ∃ s1 ∈ (synthesize ["s3"]
      [{ nspace := "s3", operation := "GetObject",
         file := "lambda/simple-s3-reader/index.ts", line := 1 }]).policy,
    ∃ s2 ∈ (synthesize ["s3"]
      [{ nspace := "s3", operation := "GetObject",
         file := "lambda/simple-s3-reader/index.ts", line := 1 }]).policy,
      s1 ≠ s2 ∧ s1.resources = s2.resources ∧ s1.viaService = s2.viaService := by
  decide

/-- C4 (amended): the assembler groups by (action namespace, resource-set,
condition) rather than only (resource-set, condition): every statement of
a synthesized policy draws its actions from a single service namespace,
and no two distinct statements agree on that namespace together with the
resource-set and the condition; statements with differing conditions are
in particular never merged. -/
theorem assembled_policy_distinct_group_keys (hints : List String)
    (callSites : List CallSite) :
    (∀ st ∈ (synthesize hints callSites).policy,
      ∃ n, statementNamespaces st = [n]) ∧
    (synthesize hints callSites).policy.Pairwise (fun a b =>
      ¬(statementNamespaces a = statementNamespaces b ∧
        a.resources = b.resources ∧ a.viaService = b.viaService)) := by
  have hpol : (synthesize hints callSites).policy =
      (List.insertionSort keyLe
        (((callSites.flatMap callSiteTuples).map tupleKey).dedup)).map
        (statementFor (callSites.flatMap callSiteTuples)) := rfl
  constructor
  · rw [hpol]
    intro st hst
    obtain ⟨k, hk, rfl⟩ := List.mem_map.mp hst
    exact ⟨k.nspace, statementNamespaces_statementFor (mem_of_mem_sorted_keys hk)⟩
  · rw [hpol]
    apply List.pairwise_map.mpr
    have hnd : (List.insertionSort keyLe
        (((callSites.flatMap callSiteTuples).map tupleKey).dedup)).Nodup :=
      (List.perm_insertionSort keyLe _).nodup_iff.mpr (List.nodup_dedup _)
    refine List.Pairwise.imp_of_mem ?_ hnd
    intro k1 k2 h1 h2 hne hcontra
    apply hne
    obtain ⟨hns, hres, hvia⟩ := hcontra
    have e1 := statementNamespaces_statementFor (mem_of_mem_sorted_keys h1)
    have e2 := statementNamespaces_statementFor (mem_of_mem_sorted_keys h2)
    rw [e1, e2] at hns
    have hn : k1.nspace = k2.nspace := by simpa using hns
    have hr : k1.resources = k2.resources := hres
    have hv : k1.viaService = k2.viaService := hvia
    cases k1
    cases k2
    simp_all

/-- C4 witness: the amended grouping claim instantiated at the
simple-s3-reader scenario, applied to the kms statement of its policy. -/
theorem assembled_policy_distinct_group_keys_witness :
    ∃ n, statementNamespaces
      { actions := ["kms:Decrypt"],
        resources := ["arn:aws:kms:*:*:key/*"],
        viaService := some "s3.*.amazonaws.com" } = [n] :=
  (assembled_policy_distinct_group_keys ["s3"]
    [{ nspace := "s3", operation := "GetObject",
       file := "lambda/simple-s3-reader/index.ts", line := 1 }]).1
    { actions := ["kms:Decrypt"],
      resources := ["arn:aws:kms:*:*:key/*"],
      viaService := some "s3.*.amazonaws.com" }
    (by decide)

/-- C5: synthesis is deterministic — two runs on the same hints and the
same extracted call sites give the same `SynthesisResult` — and the
statement order is itself stable: the policy is sorted by the stable key
order `keyLe` on each statement grouping key. -/
theorem synthesize_deterministic_stable_order (hints : List String)
    (callSites : List CallSite) (r1 r2 : SynthesisResult)
    (h1 : r1 = synthesize hints callSites)
    (h2 : r2 = synthesize hints callSites) :
    r1 = r2 ∧
    r1.policy.Sorted (fun a b => keyLe (statementKey a) (statementKey b)) := by
  subst h1
  subst h2
  refine ⟨rfl, ?_⟩
  haveI : IsTotal GroupKey keyLe := ⟨keyLe_total⟩
  haveI : IsTrans GroupKey keyLe := ⟨fun _ _ _ => keyLe_trans⟩
  have hs : (List.insertionSort keyLe
      (((callSites.flatMap callSiteTuples).map tupleKey).dedup)).Sorted keyLe :=
    List.sorted_insertionSort keyLe _
  show (List.Sorted _ ((List.insertionSort keyLe
    (((callSites.flatMap callSiteTuples).map tupleKey).dedup)).map
      (statementFor (callSites.flatMap callSiteTuples))))
  unfold List.Sorted at hs ⊢
  apply List.pairwise_map.mpr
  refine List.Pairwise.imp_of_mem ?_ hs
  intro k1 k2 hk1 hk2 hle
  rw [statementKey_statementFor (mem_of_mem_sorted_keys hk1),
    statementKey_statementFor (mem_of_mem_sorted_keys hk2)]
  exact hle

/-- C5 witness: the determinism and stable-order theorem applied to the
simple-s3-reader scenario input. -/
theorem synthesize_deterministic_stable_order_witness :
    (synthesize ["s3"]
      [{ nspace := "s3", operation := "GetObject",
         file := "lambda/simple-s3-reader/index.ts", line := 1 }] =
     synthesize ["s3"]
      [{ nspace := "s3", operation := "GetObject",
         file := "lambda/simple-s3-reader/index.ts", line := 1 }]) ∧
    (synthesize ["s3"]
      [{ nspace := "s3", operation := "GetObject",
         file := "lambda/simple-s3-reader/index.ts", line := 1 }]).policy.Sorted
      (fun a b => keyLe (statementKey a) (statementKey b)) :=
  synthesize_deterministic_stable_order ["s3"]
    [{ nspace := "s3", operation := "GetObject",
       file := "lambda/simple-s3-reader/index.ts", line := 1 }] _ _ rfl rfl

/-! ## Scenario claims about the synthesizer (C1, C3) -/

set_option maxHeartbeats 1600000 in
/-- C1: for any source file whose only detected call site is a
`GetObjectCommand` construction under an S3-namespaced import — extracted
as the single call site (s3, GetObject) — the synthesized policy includes
`s3:GetObject`, `s3:GetObjectLegalHold`, `s3:GetObjectRetention`,
`s3:GetObjectTagging`, `s3:GetObjectVersion` and
`s3-object-lambda:GetObject`, plus a `kms:Decrypt` statement conditioned
on `StringLike kms:ViaService = s3.*.amazonaws.com`. -/
theorem synthesize_s3_getObject_policy (hints : List String)
    (file : String) (line : Nat) :
    policyHasAction (synthesize hints
      [{ nspace := "s3", operation := "GetObject", file := file,
         line := line }]).policy "s3:GetObject" ∧
    policyHasAction (synthesize hints
      [{ nspace := "s3", operation := "GetObject", file := file,
         line := line }]).policy "s3:GetObjectLegalHold" ∧
    policyHasAction (synthesize hints
      [{ nspace := "s3", operation := "GetObject", file := file,
         line := line }]).policy "s3:GetObjectRetention" ∧
    policyHasAction (synthesize hints
      [{ nspace := "s3", operation := "GetObject", file := file,
         line := line }]).policy "s3:GetObjectTagging" ∧
    policyHasAction (synthesize hints
      [{ nspace := "s3", operation := "GetObject", file := file,
         line := line }]).policy "s3:GetObjectVersion" ∧
    policyHasAction (synthesize hints
      [{ nspace := "s3", operation := "GetObject", file := file,
         line := line }]).policy "s3-object-lambda:GetObject" ∧
    ∃ st ∈ (synthesize hints
      [{ nspace := "s3", operation := "GetObject", file := file,
         line := line }]).policy,
      "kms:Decrypt" ∈ st.actions ∧
      st.viaService = some "s3.*.amazonaws.com" := by
  have hp : (synthesize hints
      [{ nspace := "s3", operation := "GetObject", file := file,
         line := line }]).policy =
      [{ actions := ["kms:Decrypt"],
         resources := ["arn:aws:kms:*:*:key/*"],
         viaService := some "s3.*.amazonaws.com" },
       { actions := ["s3-object-lambda:GetObject"],
         resources := ["arn:aws:s3:*:*:accesspoint/*/object/*",
                       "arn:aws:s3:::*/*"] },
       { actions := ["s3:GetObject", "s3:GetObjectLegalHold",
                     "s3:GetObjectRetention", "s3:GetObjectTagging",
                     "s3:GetObjectVersion"],
         resources := ["arn:aws:s3:*:*:accesspoint/*/object/*",
                       "arn:aws:s3:::*/*"] }] := rfl
  rw [hp]
  decide

set_option maxHeartbeats 1600000 in
/-- C3: for an input whose only call site is the document-client
`PutCommand` — extracted as (dynamodb, PutItem) — the policy includes
exactly `dynamodb:PutItem` among DynamoDB actions (in particular neither
`dynamodb:UpdateItem` nor `dynamodb:BatchWriteItem`), plus a
`kms:Decrypt` statement conditioned on
`StringLike kms:ViaService = dynamodb.*.amazonaws.com`. -/
theorem synthesize_dynamodb_putItem_policy (hints : List String)
    (file : String) (line : Nat) :
    policyHasAction (synthesize hints
      [{ nspace := "dynamodb", operation := "PutItem", file := file,
         line := line }]).policy "dynamodb:PutItem" ∧
    ¬ policyHasAction (synthesize hints
      [{ nspace := "dynamodb", operation := "PutItem", file := file,
         line := line }]).policy "dynamodb:UpdateItem" ∧
    ¬ policyHasAction (synthesize hints
      [{ nspace := "dynamodb", operation := "PutItem", file := file,
         line := line }]).policy "dynamodb:BatchWriteItem" ∧
    ((synthesize hints
      [{ nspace := "dynamodb", operation := "PutItem", file := file,
         line := line }]).policy.all (fun st => st.actions.all (fun a =>
        decide (namespaceOf a ≠ "dynamodb") ||
        decide (a = "dynamodb:PutItem")))) = true ∧
    ∃ st ∈ (synthesize hints
      [{ nspace := "dynamodb", operation := "PutItem", file := file,
         line := line }]).policy,
      "kms:Decrypt" ∈ st.actions ∧
      st.viaService = some "dynamodb.*.amazonaws.com" := by
  have hp : (synthesize hints
      [{ nspace := "dynamodb", operation := "PutItem", file := file,
         line := line }]).policy =
      [{ actions := ["dynamodb:PutItem"],
         resources := ["arn:aws:dynamodb:*:*:table/*"] },
       { actions := ["kms:Decrypt"],
         resources := ["arn:aws:kms:*:*:key/*"],
         viaService := some "dynamodb.*.amazonaws.com" }] := rfl
  rw [hp]
  decide

/-- C1 witness: the scenario instantiated at the actual simple-s3-reader
query of the report. -/
theorem synthesize_s3_getObject_policy_witness :
    policyHasAction (synthesize ["s3"]
      [{ nspace := "s3", operation := "GetObject",
         file := "lambda/simple-s3-reader/index.ts",
         line := 1 }]).policy "s3:GetObject" :=
  (synthesize_s3_getObject_policy ["s3"]
    "lambda/simple-s3-reader/index.ts" 1).1

/-- C3 witness: the scenario instantiated at the actual
sqs-dynamodb-processor query of the report. -/
theorem synthesize_dynamodb_putItem_policy_witness :
    policyHasAction (synthesize ["sqs", "dynamodb"]
      [{ nspace := "dynamodb", operation := "PutItem",
         file := "lambda/sqs-dynamodb-processor/index.ts",
         line := 108 }]).policy "dynamodb:PutItem" :=
  (synthesize_dynamodb_putItem_policy ["sqs", "dynamodb"]
    "lambda/sqs-dynamodb-processor/index.ts" 108).1

/-! ## Claims about the Coverage Reporter (C6) -/

/-- C6: for every synthesis run the unmatched hints are exactly the
caller-supplied hints whose namespace does not occur among the actions of
the emitted policy; concretely, the sqs-dynamodb-processor query with
hints [sqs, dynamodb] over the single (dynamodb, PutItem) call site
leaves exactly the sqs hint unmatched. -/
theorem unmatchedHints_characterization :
    (∀ (hints : List String) (callSites : List CallSite) (h : String),
      h ∈ (synthesize hints callSites).unmatchedHints ↔
        h ∈ hints ∧
        h ∉ namespacesPresent (synthesize hints callSites).policy) ∧
    (synthesize ["sqs", "dynamodb"]
      [{ nspace := "dynamodb", operation := "PutItem",
         file := "lambda/sqs-dynamodb-processor/index.ts",
         line := 108 }]).unmatchedHints = ["sqs"] := by
  constructor
  · intro hints callSites h
    show h ∈ unmatchedHintsOf hints ((synthesize hints callSites).policy) ↔ _
    simp [unmatchedHintsOf, List.mem_filter]
  · decide

/-- C6 witness: the characterization instantiated at the
sqs-dynamodb-processor query for the sqs hint. -/
theorem unmatchedHints_characterization_witness :
    "sqs" ∈ (synthesize ["sqs", "dynamodb"]
      [{ nspace := "dynamodb", operation := "PutItem",
         file := "lambda/sqs-dynamodb-processor/index.ts",
         line := 108 }]).unmatchedHints ↔
      "sqs" ∈ ["sqs", "dynamodb"] ∧
      "sqs" ∉ namespacesPresent (synthesize ["sqs", "dynamodb"]
        [{ nspace := "dynamodb", operation := "PutItem",
           file := "lambda/sqs-dynamodb-processor/index.ts",
           line := 108 }]).policy :=
  unmatchedHints_characterization.1 ["sqs", "dynamodb"]
    [{ nspace := "dynamodb", operation := "PutItem",
       file := "lambda/sqs-dynamodb-processor/index.ts", line := 108 }] "sqs"

/-! ## Claims about the error taxonomy (C7, C8) -/

/-- C7: when every input file parses and zero call sites are detected
across all of them, synthesis does not crash: it yields the distinct
`emptyInput` outcome carrying a result with an empty statement list, and
the outcome is not the failure case. -/
theorem runSynthesis_empty_input (hints : List String)
    (files : List SourceFile)
    (hparse : firstUnparsable files = none)
    (hzero : files.flatMap (fun f => f.parsed.getD []) = []) :
    runSynthesis hints files = .emptyInput (synthesize hints []) ∧
    (synthesize hints []).policy = [] ∧
    (runSynthesis hints files).isFailure = false := by
  have h1 : runSynthesis hints files = .emptyInput (synthesize hints []) := by
    unfold runSynthesis
    rw [hparse]
    simp [hzero]
  refine ⟨h1, rfl, ?_⟩
  rw [h1]
  rfl

/-- C7 witness: a parsed source file with no recognizable SDK call sites. -/
theorem runSynthesis_empty_input_witness :
    firstUnparsable [⟨"lambda/plain/index.ts", some []⟩] = none ∧
    ([⟨"lambda/plain/index.ts", some []⟩] : List SourceFile).flatMap
      (fun f => f.parsed.getD []) = [] ∧
    (runSynthesis ["s3"] [⟨"lambda/plain/index.ts", some []⟩] =
       .emptyInput (synthesize ["s3"] []) ∧
     (synthesize ["s3"] []).policy = [] ∧
     (runSynthesis ["s3"]
       [⟨"lambda/plain/index.ts", some []⟩]).isFailure = false) :=
  ⟨rfl, rfl, runSynthesis_empty_input ["s3"] _ rfl rfl⟩

/-- C8: a call site whose (namespace, operation) lookup yields `NotFound`
never aborts synthesis: it contributes nothing to the policy (the policy
and the unmatched hints equal those of the run without it, so the
remaining call sites are still processed), and it is recorded in the
coverage-gap list of unmapped operations. -/
theorem unmapped_operation_skipped (hints : List String)
    (pre post : List CallSite) (cs : CallSite)
    (hcs : lookup cs.nspace cs.operation = none) :
    (synthesize hints (pre ++ cs :: post)).policy =
      (synthesize hints (pre ++ post)).policy ∧
    (synthesize hints (pre ++ cs :: post)).unmatchedHints =
      (synthesize hints (pre ++ post)).unmatchedHints ∧
    cs ∈ (synthesize hints (pre ++ cs :: post)).unmappedOperations := by
  have htup : callSiteTuples cs = [] := by
    unfold callSiteTuples
    rw [hcs]
  have hflat : (pre ++ cs :: post).flatMap callSiteTuples =
      (pre ++ post).flatMap callSiteTuples := by
    simp [htup]
  have hpol : (synthesize hints (pre ++ cs :: post)).policy =
      (synthesize hints (pre ++ post)).policy := by
    show assemble ((pre ++ cs :: post).flatMap callSiteTuples) =
      assemble ((pre ++ post).flatMap callSiteTuples)
    rw [hflat]
  refine ⟨hpol, ?_, ?_⟩
  · show unmatchedHintsOf hints ((synthesize hints (pre ++ cs :: post)).policy) =
      unmatchedHintsOf hints ((synthesize hints (pre ++ post)).policy)
    rw [hpol]
  · show cs ∈ (pre ++ cs :: post).filter
      (fun c => decide (lookup c.nspace c.operation = none))
    exact List.mem_filter.mpr ⟨by simp, by simp [hcs]⟩

/-- C8 witness: an unrecognized `ListBuckets` operation next to a mapped
`GetObject` call site. -/
theorem unmapped_operation_skipped_witness :
    lookup "s3" "ListBuckets" = none ∧
    ({ nspace := "s3", operation := "ListBuckets",
       file := "lambda/simple-s3-reader/index.ts", line := 2 } : CallSite) ∈
      (synthesize ["s3"]
        ([] ++ { nspace := "s3", operation := "ListBuckets",
                 file := "lambda/simple-s3-reader/index.ts", line := 2 } ::
          [{ nspace := "s3", operation := "GetObject",
             file := "lambda/simple-s3-reader/index.ts",
             line := 1 }])).unmappedOperations :=
  ⟨rfl,
   (unmapped_operation_skipped ["s3"] []
     [{ nspace := "s3", operation := "GetObject",
        file := "lambda/simple-s3-reader/index.ts", line := 1 }]
     { nspace := "s3", operation := "ListBuckets",
       file := "lambda/simple-s3-reader/index.ts", line := 2 } rfl).2.2⟩

/-! ## Claims about the KMS companion of write-class actions (C2) -/

/-- C2 counterexample: the claim that every write-class action on an
encryption-capable service receives the companion `kms:GenerateDataKey`
(and not `kms:Decrypt`) fails on the DynamoDB write path: the modelled
expander and the construct write branch both attach `kms:Decrypt` and
never `kms:GenerateDataKey` there. -/
theorem dynamodb_write_kms_companion_is_decrypt :
    kmsCompanionAction "dynamodb" "PutItem" = some "kms:Decrypt" ∧
    kmsCompanionAction "dynamodb" "PutItem" ≠ some "kms:GenerateDataKey" ∧
    (∃ st ∈ dynamoDBPermissionStatements
        ⟨"arn:aws:dynamodb:us-east-1:111111111111:table/ProcessedMessages",
          some ⟨"arn:aws:kms:us-east-1:111111111111:key/cmk"⟩⟩ .write,
      "kms:Decrypt" ∈ st.actions) ∧
    ¬ (∃ st ∈ dynamoDBPermissionStatements
        ⟨"arn:aws:dynamodb:us-east-1:111111111111:table/ProcessedMessages",
          some ⟨"arn:aws:kms:us-east-1:111111111111:key/cmk"⟩⟩ .write,
      "kms:GenerateDataKey" ∈ st.actions) := by
  decide

/-- C2 (amended): write-class actions on S3 receive the companion
`kms:GenerateDataKey` with the s3-specific `kms:ViaService` condition,
but the DynamoDB write path instead receives `kms:Decrypt` with the
dynamodb-specific condition (and never `kms:GenerateDataKey`), and the
SQS send and Secrets Manager write branches of the construct attach no
KMS companion at all. -/
theorem write_class_kms_companion_amended :
    kmsCompanionAction "s3" "PutObject" = some "kms:GenerateDataKey" ∧
    kmsCompanionAction "dynamodb" "PutItem" = some "kms:Decrypt" ∧
    (∀ (b : BucketRef) (k : KeyRef), b.encryptionKey = some k →
      ∃ st ∈ s3PermissionStatements b .write,
        st.actions = ["kms:GenerateDataKey"] ∧ st.resources = [k.keyArn] ∧
        st.viaService = some "s3.*.amazonaws.com") ∧
    (∀ (t : TableRef) (k : KeyRef), t.encryptionKey = some k →
      (∃ st ∈ dynamoDBPermissionStatements t .write,
        st.actions = ["kms:Decrypt"] ∧ st.resources = [k.keyArn] ∧
        st.viaService = some "dynamodb.*.amazonaws.com") ∧
      ∀ st ∈ dynamoDBPermissionStatements t .write,
        "kms:GenerateDataKey" ∉ st.actions) ∧
    (∀ (q : QueueRef), ∀ st ∈ sqsPermissionStatements q .send,
      hasKmsAction st = false) ∧
    (∀ (s : SecretRef), ∀ st ∈ secretPermissionStatements s .write,
      hasKmsAction st = false) := by
  refine ⟨rfl, rfl, ?_, ?_, ?_, ?_⟩
  · rintro ⟨arn, bk⟩ k hk
    change bk = some k at hk
    subst hk
    refine ⟨{ actions := ["kms:GenerateDataKey"], resources := [k.keyArn],
              viaService := some "s3.*.amazonaws.com" }, ?_, rfl, rfl, rfl⟩
    simp [s3PermissionStatements]
  · rintro ⟨arn, tk⟩ k hk
    change tk = some k at hk
    subst hk
    refine ⟨⟨{ actions := ["kms:Decrypt"], resources := [k.keyArn],
               viaService := some "dynamodb.*.amazonaws.com" },
              by simp [dynamoDBPermissionStatements], rfl, rfl, rfl⟩, ?_⟩
    intro st hst
    simp [dynamoDBPermissionStatements] at hst
    rcases hst with h | h <;> subst h
    · exact (by decide : ("kms:GenerateDataKey" : String) ∉ (["dynamodb:PutItem"] : List String))
    · exact (by decide : ("kms:GenerateDataKey" : String) ∉ (["kms:Decrypt"] : List String))
  · rintro ⟨arn, qk⟩ st hst
    simp [sqsPermissionStatements] at hst
    subst hst
    rfl
  · rintro ⟨arn, sk⟩ st hst
    simp [secretPermissionStatements] at hst
    subst hst
    rfl

/-- C2 witness: the amended claim instantiated at a concrete encrypted
bucket and a concrete encrypted table. -/
theorem write_class_kms_companion_amended_witness :
    (∃ st ∈ s3PermissionStatements
        ⟨"arn:aws:s3:::data-bucket", some ⟨"arn:aws:kms:us-east-1:1:key/a"⟩⟩
        .write,
      st.actions = ["kms:GenerateDataKey"] ∧
      st.resources = ["arn:aws:kms:us-east-1:1:key/a"] ∧
      st.viaService = some "s3.*.amazonaws.com") ∧
    ∃ st ∈ dynamoDBPermissionStatements
        ⟨"arn:aws:dynamodb:us-east-1:1:table/t",
          some ⟨"arn:aws:kms:us-east-1:1:key/b"⟩⟩ .write,
      st.actions = ["kms:Decrypt"] ∧
      st.resources = ["arn:aws:kms:us-east-1:1:key/b"] ∧
      st.viaService = some "dynamodb.*.amazonaws.com" :=
  ⟨write_class_kms_companion_amended.2.2.1
      ⟨"arn:aws:s3:::data-bucket", some ⟨"arn:aws:kms:us-east-1:1:key/a"⟩⟩
      ⟨"arn:aws:kms:us-east-1:1:key/a"⟩ rfl,
   (write_class_kms_companion_amended.2.2.2.1
      ⟨"arn:aws:dynamodb:us-east-1:1:table/t",
        some ⟨"arn:aws:kms:us-east-1:1:key/b"⟩⟩
      ⟨"arn:aws:kms:us-east-1:1:key/b"⟩ rfl).1⟩

/-! ## Claims about the construct KMS guards (C9) -/

/-- C9: in `IAMPermissionConstruct` a KMS statement is attached for a
resource only when that resource actually carries a customer-managed
encryption key: for every permission kind, the S3, SQS, DynamoDB and
Secrets Manager branches emit no `kms:`-actioned statement when the
respective key field is absent, and with a key present the read-path
branches (and the DynamoDB branches) emit a KMS statement scoped to that
key. -/
theorem construct_kms_statements_require_encryption_key :
    (∀ (b : BucketRef), b.encryptionKey = none → ∀ p : Permission,
      (s3PermissionStatements b p).all (fun st => !hasKmsAction st) = true) ∧
    (∀ (q : QueueRef), q.encryptionMasterKey = none → ∀ p : Permission,
      (sqsPermissionStatements q p).all (fun st => !hasKmsAction st) = true) ∧
    (∀ (t : TableRef), t.encryptionKey = none → ∀ p : Permission,
      (dynamoDBPermissionStatements t p).all (fun st => !hasKmsAction st) = true) ∧
    (∀ (s : SecretRef), s.encryptionKey = none → ∀ p : Permission,
      (secretPermissionStatements s p).all (fun st => !hasKmsAction st) = true) ∧
    (∀ (b : BucketRef) (k : KeyRef), b.encryptionKey = some k →
      ∃ st ∈ s3PermissionStatements b .read,
        hasKmsAction st = true ∧ st.resources = [k.keyArn]) ∧
    (∀ (q : QueueRef) (k : KeyRef), q.encryptionMasterKey = some k →
      ∃ st ∈ sqsPermissionStatements q .consume,
        hasKmsAction st = true ∧ st.resources = [k.keyArn]) ∧
    (∀ (t : TableRef) (k : KeyRef), t.encryptionKey = some k →
      ∃ st ∈ dynamoDBPermissionStatements t .read,
        hasKmsAction st = true ∧ st.resources = [k.keyArn]) ∧
    (∀ (s : SecretRef) (k : KeyRef), s.encryptionKey = some k →
      ∃ st ∈ secretPermissionStatements s .read,
        hasKmsAction st = true ∧ st.resources = [k.keyArn]) := by
  refine ⟨?_, ?_, ?_, ?_, ?_, ?_, ?_, ?_⟩
  · rintro ⟨arn, bk⟩ hk p
    change bk = none at hk
    subst hk
    cases p <;> rfl
  · rintro ⟨arn, qk⟩ hk p
    change qk = none at hk
    subst hk
    cases p <;> rfl
  · rintro ⟨arn, tk⟩ hk p
    change tk = none at hk
    subst hk
    cases p <;> rfl
  · rintro ⟨arn, sk⟩ hk p
    change sk = none at hk
    subst hk
    cases p <;> rfl
  · rintro ⟨arn, bk⟩ k hk
    change bk = some k at hk
    subst hk
    refine ⟨{ actions := ["kms:Decrypt"], resources := [k.keyArn],
              viaService := some "s3.*.amazonaws.com" }, ?_, rfl, rfl⟩
    simp [s3PermissionStatements]
  · rintro ⟨arn, qk⟩ k hk
    change qk = some k at hk
    subst hk
    refine ⟨{ actions := ["kms:Decrypt"], resources := [k.keyArn],
              viaService := some "sqs.*.amazonaws.com" }, ?_, rfl, rfl⟩
    simp [sqsPermissionStatements]
  · rintro ⟨arn, tk⟩ k hk
    change tk = some k at hk
    subst hk
    refine ⟨{ actions := ["kms:Decrypt"], resources := [k.keyArn],
              viaService := some "dynamodb.*.amazonaws.com" }, ?_, rfl, rfl⟩
    simp [dynamoDBPermissionStatements]
  · rintro ⟨arn, sk⟩ k hk
    change sk = some k at hk
    subst hk
    refine ⟨{ actions := ["kms:Decrypt"], resources := [k.keyArn],
              viaService := some "secretsmanager.*.amazonaws.com" }, ?_, rfl, rfl⟩
    simp [secretPermissionStatements]

/-- C9 witness: an unencrypted bucket gets no KMS statement on the read
path, while an encrypted queue gets a KMS statement on the consume path. -/
theorem construct_kms_statements_require_encryption_key_witness :
    (s3PermissionStatements ⟨"arn:aws:s3:::plain-bucket", none⟩ .read).all
      (fun st => !hasKmsAction st) = true ∧
    ∃ st ∈ sqsPermissionStatements
        ⟨"arn:aws:sqs:us-east-1:1:q", some ⟨"arn:aws:kms:us-east-1:1:key/q"⟩⟩
        .consume,
      hasKmsAction st = true ∧ st.resources = ["arn:aws:kms:us-east-1:1:key/q"] :=
  ⟨construct_kms_statements_require_encryption_key.1
      ⟨"arn:aws:s3:::plain-bucket", none⟩ rfl .read,
   construct_kms_statements_require_encryption_key.2.2.2.2.2.1
      ⟨"arn:aws:sqs:us-east-1:1:q", some ⟨"arn:aws:kms:us-east-1:1:key/q"⟩⟩
      ⟨"arn:aws:kms:us-east-1:1:key/q"⟩ rfl⟩

/-! ## Claims about the sqs-dynamodb-processor handler (C10) -/

/-- The failures accumulated by the handler are exactly the failing
records, in record order. -/
theorem handlerFailures_eq_filter (clock : Clock)
    (send : ProcessedMessage → Except DynamoError Unit) :
    ∀ rs : List SQSRecord,
      handlerFailures clock send rs =
        (rs.filter (recordFails clock send)).map
          (fun r => { itemIdentifier := r.messageId })
  | [] => rfl
  | r :: rs => by
    have ih := handlerFailures_eq_filter clock send rs
    unfold handlerFailures
    cases hp : processMessage clock send r with
    | ok u =>
      have hf : recordFails clock send r = false := by
        simp [recordFails, hp]
      simp [List.filter_cons, hf, ih]
    | error e =>
      have hf : recordFails clock send r = true := by
        simp [recordFails, hp]
      simp [List.filter_cons, hf, ih]

/-- C10: the handler always resolves (never rejects): its result is the
`.ok` batch response whose `batchItemFailures` are exactly the message
ids of the records whose processing threw, and (with the batch message
ids distinct, as SQS guarantees) a record stored successfully never
appears among the failures. -/
theorem handler_resolves_with_failed_record_ids (clock : Clock)
    (send : ProcessedMessage → Except DynamoError Unit) (event : SQSEvent) :
    handler clock send event = .ok
      { batchItemFailures :=
          (event.Records.filter (recordFails clock send)).map
            (fun r => { itemIdentifier := r.messageId }) } ∧
    ((event.Records.map SQSRecord.messageId).Nodup →
      ∀ r ∈ event.Records, recordFails clock send r = false →
        ({ itemIdentifier := r.messageId } : SQSBatchItemFailure) ∉
          handlerFailures clock send event.Records) := by
  constructor
  · show Except.ok
      ({ batchItemFailures := handlerFailures clock send event.Records } :
        SQSBatchResponse) = _
    rw [handlerFailures_eq_filter]
  · intro hnd r hr hok hmem
    rw [handlerFailures_eq_filter] at hmem
    obtain ⟨r', hr', hid⟩ := List.mem_map.mp hmem
    have hfil := List.mem_filter.mp hr'
    have hid2 : r'.messageId = r.messageId :=
      congrArg SQSBatchItemFailure.itemIdentifier hid
    have heq : r' = r :=
      List.inj_on_of_nodup_map hnd hfil.1 hr hid2
    rw [heq, hok] at hfil
    exact absurd hfil.2 (by simp)

/-- C10 witness: a two-record batch in which the first record stores
successfully and the second throws; the successful id is absent from
the failures. -/
theorem handler_resolves_with_failed_record_ids_witness :
    ({ itemIdentifier := "msg-ok" } : SQSBatchItemFailure) ∉
      handlerFailures ⟨"2025-12-23T03:52:57.838Z", fun ts => ts⟩
        (fun m => if m.body = "poison" then .error (.other "boom") else .ok ())
        [⟨"msg-ok", "hello", none, some "arn:aws:sqs:us-east-1:1:queue"⟩,
         ⟨"msg-bad", "poison", some "1734925977000", none⟩] :=
  (handler_resolves_with_failed_record_ids
      ⟨"2025-12-23T03:52:57.838Z", fun ts => ts⟩
      (fun m => if m.body = "poison" then .error (.other "boom") else .ok ())
      ⟨[⟨"msg-ok", "hello", none, some "arn:aws:sqs:us-east-1:1:queue"⟩,
        ⟨"msg-bad", "poison", some "1734925977000", none⟩]⟩).2
    (by decide)
    ⟨"msg-ok", "hello", none, some "arn:aws:sqs:us-east-1:1:queue"⟩
    (by simp)
    rfl

end IamPolicyAutopilot
